import Mathlib

/-!
Shallow embedding of the verl tool-execution subsystem:
`verl/tools/grep_search_tool.py` (GrepSearchTool lifecycle: create / execute /
calc_reward / release, with the rg-primary / grep-fallback search step and its
timeout handling) and `verl/workers/reward_manager/noop.py`
(NoopRewardManager.__call__).

Python dictionaries are embedded as association lists with Python dict
semantics: assignment replaces in place or appends, `del` removes the key and
raises `KeyError` when absent, subscript lookup raises `KeyError` when absent.
The external search subprocess is an oracle parameter (`SearchOutcome`)
describing which backend ran and what it produced; `execute` consumes it
exactly in the order the Python `try/except` structure does.  Note that in
Python an exception raised inside an `except` handler is not caught by a
sibling `except` clause of the same `try`: a `TimeoutExpired` raised by the
fallback `grep` call (which lives inside the `except FileNotFoundError`
handler) propagates out of `execute`.  The embedding reproduces this.
-/

/-- Python exceptions that the embedded code can surface. -/
inductive PyError where
  | keyError (key : String)
  | timeoutExpired
  | fileNotFoundError
deriving DecidableEq, Repr

/-- A Python value, as far as the `parameters` dict of `execute` needs:
`parameters.get("query", "")` may return a string or any other object,
which is then coerced with `str(...)`. -/
inductive PyValue where
  | str (s : String)
  | int (n : Int)
  | bool (b : Bool)
  | none
deriving DecidableEq, Repr

/-- Python `str(...)` on the embedded values. -/
def pyStr : PyValue → String
  | .str s => s
  | .int n => toString n
  | .bool b => if b then "True" else "False"
  | .none => "None"

/-- Association-list lookup with Python dict semantics (first binding wins;
stores built by `insertKey` have unique keys). -/
def lookupKey {α : Type} : List (String × α) → String → Option α
  | [], _ => Option.none
  | (k, v) :: rest, key => if k = key then some v else lookupKey rest key

/-- Python dict assignment `d[key] = v`: replace in place if the key is
present, append otherwise. -/
def insertKey {α : Type} : List (String × α) → String → α → List (String × α)
  | [], key, v => [(key, v)]
  | (k, w) :: rest, key, v =>
      if k = key then (key, v) :: rest else (k, w) :: insertKey rest key v

/-- Python `del d[key]` on a dict with unique keys: drop the binding. -/
def eraseKey {α : Type} : List (String × α) → String → List (String × α)
  | [], _ => []
  | (k, w) :: rest, key =>
      if k = key then eraseKey rest key else (k, w) :: eraseKey rest key

/-- One entry of `GrepSearchTool._instance_dict`:
`{"response": "", "ground_truth": ground_truth, "reward": 0.0}`.
The float reward is embedded as a rational (the tool only ever stores 0.0). -/
structure ToolInstanceState where
  response : String
  ground_truth : Option String
  reward : Rat
deriving DecidableEq, Repr

/-- The per-tool instance store `self._instance_dict`. -/
abbrev ToolInstanceStore := List (String × ToolInstanceState)

/-- The `metrics` dict returned by `GrepSearchTool.execute`:
`{"query": ..., "total_matches": ..., "returned_lines": ...}`. -/
structure Metrics where
  query : String
  total_matches : Nat
  returned_lines : Nat
deriving DecidableEq, Repr

/-- Oracle for the search subprocess step of `execute`: which backend ran and
how it ended.  `ok` is the primary `rg` run succeeding; `rgMissingOk` is
`rg` raising `FileNotFoundError` and the fallback `grep` succeeding;
`rgTimeout` is the primary run raising `TimeoutExpired`;
`rgMissingGrepTimeout` is the fallback run raising `TimeoutExpired` (inside
the `except FileNotFoundError` handler); `rgMissingGrepMissing` is both
binaries missing. -/
inductive SearchOutcome where
  | ok (stdout_lines : List String)
  | rgMissingOk (stdout_lines : List String)
  | rgTimeout
  | rgMissingGrepTimeout
  | rgMissingGrepMissing
deriving DecidableEq, Repr

/-- The lines the backend produced when it ran to completion (neither a
timeout nor a missing-binary failure). -/
def SearchOutcome.completed : SearchOutcome → Option (List String)
  | .ok lines => some lines
  | .rgMissingOk lines => some lines
  | _ => Option.none

/-- Events recorded by the embedded `execute`, in program order: each
`subprocess.run` invocation and the write into `_instance_dict`. -/
inductive ExecEvent where
  | subprocessAttempt (cmd : List String)
  | storeWrite (instance_id : String)
deriving DecidableEq, Repr

namespace GrepSearchTool

/-- The primary command `["rg", "-n", "--no-heading", "--color", "never",
query, str(search_root)]`. -/
def rgCmd (query search_root : String) : List String :=
  ["rg", "-n", "--no-heading", "--color", "never", query, search_root]

/-- The fallback command `["grep", "-R", "-n", query, str(search_root)]`. -/
def grepCmd (query search_root : String) : List String :=
  ["grep", "-R", "-n", query, search_root]

/-- The query coercion at the top of `execute`:
`query = parameters.get("query", "")` followed by
`if not isinstance(query, str): query = str(query)`. -/
def coerceQuery (parameters : List (String × PyValue)) : String :=
  match lookupKey parameters "query" with
  | Option.none => ""
  | some (.str s) => s
  | some v => pyStr v

/-- The `try/except` block of `execute`, as a value: the `output_lines` it
binds, or the Python exception that escapes it.  The fallback timeout and the
double missing-binary case escape because they arise inside the
`except FileNotFoundError` handler. -/
def searchStep : SearchOutcome → Except PyError (List String)
  | .ok lines => .ok lines
  | .rgMissingOk lines => .ok lines
  | .rgTimeout => .ok ["<search timeout>"]
  | .rgMissingGrepTimeout => .error .timeoutExpired
  | .rgMissingGrepMissing => .error .fileNotFoundError

/-- The `subprocess.run` invocations the `try/except` block performs, in
order. -/
def searchEvents (outcome : SearchOutcome) (query search_root : String) :
    List ExecEvent :=
  match outcome with
  | .ok _ => [.subprocessAttempt (rgCmd query search_root)]
  | .rgTimeout => [.subprocessAttempt (rgCmd query search_root)]
  | .rgMissingOk _ =>
      [.subprocessAttempt (rgCmd query search_root),
       .subprocessAttempt (grepCmd query search_root)]
  | .rgMissingGrepTimeout =>
      [.subprocessAttempt (rgCmd query search_root),
       .subprocessAttempt (grepCmd query search_root)]
  | .rgMissingGrepMissing =>
      [.subprocessAttempt (rgCmd query search_root),
       .subprocessAttempt (grepCmd query search_root)]

/-- Result of the embedded `execute`: the instance store after the call, the
event trace, and either the returned `(result_text, 0.0, metrics)` triple or
the Python exception that escaped. -/
structure ExecResult where
  store : ToolInstanceStore
  events : List ExecEvent
  result : Except PyError (String × Rat × Metrics)
deriving Repr

/-- `GrepSearchTool.execute`, with the configuration values
(`search_root`, `max_lines`) and the subprocess oracle passed explicitly.
Mirrors the source order: coerce the query, run the search `try/except`,
slice to `max_lines`, build `result_text` (the `"<no match>"` sentinel when
the slice is empty), write the instance's `response` field (a `KeyError` here
when the identifier is unknown), then build `metrics` and return. -/
def execute (store : ToolInstanceStore) (instance_id : String)
    (parameters : List (String × PyValue)) (search_root : String)
    (max_lines : Nat) (outcome : SearchOutcome) : ExecResult :=
  let query := coerceQuery parameters
  let evs := searchEvents outcome query search_root
  match searchStep outcome with
  | .error e => ⟨store, evs, .error e⟩
  | .ok output_lines =>
      let sliced := output_lines.take max_lines
      let result_text :=
        if sliced.isEmpty then "<no match>" else String.intercalate "\n" sliced
      match lookupKey store instance_id with
      | Option.none => ⟨store, evs, .error (.keyError instance_id)⟩
      | some st =>
          let store2 := insertKey store instance_id { st with response := result_text }
          let metrics : Metrics := ⟨query, output_lines.length, sliced.length⟩
          ⟨store2, evs ++ [.storeWrite instance_id], .ok (result_text, 0, metrics)⟩

/-- `GrepSearchTool.create`: pick the caller identifier or the generated
UUID (passed here as `generated`), unconditionally assign the fresh state
into `_instance_dict`, and return `(instance_id, None)`. -/
def create (store : ToolInstanceStore) (instance_id : Option String)
    (generated : String) (ground_truth : Option String) :
    ToolInstanceStore × String × Option String :=
  let id := match instance_id with
    | Option.none => generated
    | some i => i
  (insertKey store id ⟨"", ground_truth, 0⟩, id, Option.none)

/-- `GrepSearchTool.calc_reward`: unconditionally `return 0.0`; the instance
store is neither consulted nor changed. -/
def calc_reward (store : ToolInstanceStore) (_instance_id : String) :
    ToolInstanceStore × Except PyError Rat :=
  (store, .ok 0)

/-- `GrepSearchTool.release`: `del self._instance_dict[instance_id]`, which
raises `KeyError` when the identifier is absent. -/
def release (store : ToolInstanceStore) (instance_id : String) :
    ToolInstanceStore × Except PyError Unit :=
  match lookupKey store instance_id with
  | Option.none => (store, .error (.keyError instance_id))
  | some _ => (eraseKey store instance_id, .ok ())

end GrepSearchTool

/-- A torch tensor, as far as `zeros_like` needs: its shape and its flat
data (float entries embedded as rationals). -/
structure Tensor where
  shape : List Nat
  data : List Rat
deriving DecidableEq, Repr

/-- `torch.zeros_like`: same shape, every entry zero. -/
def zeros_like (t : Tensor) : Tensor :=
  ⟨t.shape, t.data.map fun _ => 0⟩

/-- The value `NoopRewardManager.__call__` returns: the bare reward tensor,
or the `{"reward_tensor": ...}` dict when `return_dict` is set. -/
inductive RewardOutput where
  | tensor (t : Tensor)
  | dict (entries : List (String × Tensor))
deriving DecidableEq, Repr

/-- `NoopRewardManager.__call__`: `data.batch["responses"]` (a `KeyError`
when that key is absent), then `torch.zeros_like` on it, wrapped in the named
dict when `return_dict` is requested. -/
def noopCall (batch : List (String × Tensor)) (return_dict : Bool) :
    Except PyError RewardOutput :=
  match lookupKey batch "responses" with
  | Option.none => .error (.keyError "responses")
  | some t =>
      let reward_tensor := zeros_like t
      .ok (if return_dict then .dict [("reward_tensor", reward_tensor)]
           else .tensor reward_tensor)

theorem lookupKey_insertKey_self {α : Type} (s : List (String × α)) (k : String) (v : α) :
    lookupKey (insertKey s k v) k = some v := by
  induction s with
  | nil => simp [insertKey, lookupKey]
  | cons hd tl ih =>
      obtain ⟨k1, v1⟩ := hd
      by_cases h : k1 = k
      · simp [insertKey, lookupKey, h]
      · simp [insertKey, lookupKey, h, ih]

theorem lookupKey_insertKey_ne {α : Type} (s : List (String × α)) (k k' : String) (v : α)
    (h : k' ≠ k) : lookupKey (insertKey s k v) k' = lookupKey s k' := by
  induction s with
  | nil => simp [insertKey, lookupKey, Ne.symm h]
  | cons hd tl ih =>
      obtain ⟨k1, v1⟩ := hd
      by_cases h1 : k1 = k
      · subst h1
        simp [insertKey, lookupKey, Ne.symm h]
      · simp [insertKey, lookupKey, h1, ih]

theorem lookupKey_eraseKey_self {α : Type} (s : List (String × α)) (k : String) :
    lookupKey (eraseKey s k) k = Option.none := by
  induction s with
  | nil => simp [eraseKey, lookupKey]
  | cons hd tl ih =>
      obtain ⟨k1, v1⟩ := hd
      by_cases h : k1 = k
      · simp [eraseKey, h, ih]
      · simp [eraseKey, lookupKey, h, ih]

theorem lookupKey_eraseKey_ne {α : Type} (s : List (String × α)) (k k' : String)
    (h : k' ≠ k) : lookupKey (eraseKey s k) k' = lookupKey s k' := by
  induction s with
  | nil => simp [eraseKey]
  | cons hd tl ih =>
      obtain ⟨k1, v1⟩ := hd
      by_cases h1 : k1 = k
      · subst h1
        simp [eraseKey, lookupKey, Ne.symm h, ih]
      · simp [eraseKey, lookupKey, h1, ih]

/-- C1: the claim that a timed-out search never raises fails on the code for
the fallback backend.  When `rg` is absent and the fallback `grep` run
exceeds the 10-second bound, the `TimeoutExpired` arises inside the
`except FileNotFoundError` handler, which the sibling
`except subprocess.TimeoutExpired` clause does not cover, so `execute`
propagates the exception instead of returning the sentinel line.  Only the
primary backend's timeout is converted to the `"<search timeout>"` sentinel,
as the second conjunct shows. -/
theorem execute_fallback_timeout_raises :
    (GrepSearchTool.execute [("a", ⟨"", Option.none, 0⟩)] "a" [] "/repo" 20
        SearchOutcome.rgMissingGrepTimeout).result
      = Except.error PyError.timeoutExpired ∧
    (GrepSearchTool.execute [("a", ⟨"", Option.none, 0⟩)] "a" [] "/repo" 20
        SearchOutcome.rgTimeout).result
      = Except.ok ("<search timeout>", 0, ⟨"", 1, 1⟩) := by
  constructor <;> rfl

/-- C2 counterexample: `create` called with an identifier already present in
the instance store does not fail; it succeeds and silently replaces the
existing `ToolInstanceState` with the fresh one. -/
theorem create_existing_id_overwrites :
    GrepSearchTool.create [("a", ⟨"old response", some "gt", 1⟩)] (some "a")
        "generated" Option.none
      = ([("a", ⟨"", Option.none, 0⟩)], "a", Option.none) := by
  rfl

/-- C2 (amended): `create` always succeeds.  It returns the supplied
identifier (or the generated one when none is supplied) together with a
`None` initial observation, and maps that identifier to the fresh state
`{response = "", ground_truth, reward = 0.0}` — silently replacing any state
already stored under it rather than failing. -/
theorem create_inserts_fresh_state (s : ToolInstanceStore) (id? : Option String)
    (gen : String) (gt : Option String) :
    (GrepSearchTool.create s id? gen gt).2.1 = id?.getD gen ∧
    (GrepSearchTool.create s id? gen gt).2.2 = Option.none ∧
    lookupKey (GrepSearchTool.create s id? gen gt).1 (id?.getD gen)
      = some ⟨"", gt, 0⟩ := by
  cases id? <;>
    simp [GrepSearchTool.create, Option.getD, lookupKey_insertKey_self]

/-- C3 counterexample: `calc_reward` invoked with an identifier absent from
the (here empty) instance store is not an error; it succeeds with `0.0`. -/
theorem calc_reward_unknown_id_succeeds :
    lookupKey ([] : ToolInstanceStore) "missing" = Option.none ∧
    GrepSearchTool.calc_reward ([] : ToolInstanceStore) "missing"
      = ([], Except.ok 0) :=
  ⟨rfl, rfl⟩

/-- C3 (amended): with an identifier absent from the instance store,
`execute` and `release` error with a `KeyError` and leave the store
unchanged (no state is silently created), but `calc_reward` does not consult
the store at all: it succeeds with `0.0`, likewise leaving the store
unchanged. -/
theorem unknown_id_lifecycle (s : ToolInstanceStore) (id : String)
    (params : List (String × PyValue)) (root : String) (m : Nat)
    (lines : List String) (h : lookupKey s id = Option.none) :
    (GrepSearchTool.execute s id params root m (.ok lines)).result
      = Except.error (PyError.keyError id) ∧
    (GrepSearchTool.execute s id params root m (.ok lines)).store = s ∧
    GrepSearchTool.release s id = (s, Except.error (PyError.keyError id)) ∧
    GrepSearchTool.calc_reward s id = (s, Except.ok 0) := by
  refine ⟨?_, ?_, ?_, rfl⟩ <;>
    simp [GrepSearchTool.execute, GrepSearchTool.release,
      GrepSearchTool.searchStep, h]

theorem unknown_id_lifecycle_witness :
    lookupKey ([] : ToolInstanceStore) "x" = Option.none ∧
    ((GrepSearchTool.execute [] "x" [] "/r" 20 (.ok ["hit"])).result
        = Except.error (PyError.keyError "x") ∧
      (GrepSearchTool.execute [] "x" [] "/r" 20 (.ok ["hit"])).store = [] ∧
      GrepSearchTool.release [] "x" = ([], Except.error (PyError.keyError "x")) ∧
      GrepSearchTool.calc_reward [] "x" = ([], Except.ok 0)) :=
  ⟨rfl, unknown_id_lifecycle [] "x" [] "/r" 20 ["hit"] rfl⟩

/-- C4 counterexample: when the backend completes with zero match lines the
observation is the `"<no match>"` sentinel, not the join of the first
`min(k, m) = 0` lines, which would be the empty string. -/
theorem truncation_zero_matches_cex :
    (GrepSearchTool.execute [("a", ⟨"", Option.none, 0⟩)] "a" [] "/r" 20
        (SearchOutcome.ok [])).result
      = Except.ok ("<no match>", 0, ⟨"", 0, 0⟩) ∧
    "<no match>"
      ≠ String.intercalate "\n" (List.take (min 0 20) ([] : List String)) :=
  ⟨rfl, by decide⟩

/-- C4 (amended): when the backend completes with `k` match lines and
`max_lines = m`, the metrics always satisfy `total_matches = k` and
`returned_lines = min k m`; the observation is the join of the first
`min k m` lines when that prefix is non-empty, and the `"<no match>"`
sentinel when it is empty (that is, when `k = 0` or `m = 0`). -/
theorem truncation_invariant (s : ToolInstanceStore) (id : String)
    (params : List (String × PyValue)) (root : String) (m : Nat)
    (outcome : SearchOutcome) (lines : List String) (st : ToolInstanceState)
    (hc : outcome.completed = some lines) (h : lookupKey s id = some st) :
    (GrepSearchTool.execute s id params root m outcome).result
      = Except.ok
          ((if (lines.take m).isEmpty then "<no match>"
            else String.intercalate "\n" (lines.take m)), 0,
            ⟨GrepSearchTool.coerceQuery params, lines.length,
              min lines.length m⟩) := by
  cases outcome <;>
    simp_all [SearchOutcome.completed, GrepSearchTool.execute,
      GrepSearchTool.searchStep, List.length_take, Nat.min_comm]

theorem truncation_invariant_witness :
    (SearchOutcome.ok ["a:1:x", "b:2:y", "c:3:z"]).completed
      = some ["a:1:x", "b:2:y", "c:3:z"] ∧
    lookupKey [("i", (⟨"", Option.none, 0⟩ : ToolInstanceState))] "i"
      = some ⟨"", Option.none, 0⟩ ∧
    (GrepSearchTool.execute [("i", ⟨"", Option.none, 0⟩)] "i" [] "/r" 2
        (SearchOutcome.ok ["a:1:x", "b:2:y", "c:3:z"])).result
      = Except.ok
          ((if ((["a:1:x", "b:2:y", "c:3:z"].take 2).isEmpty) then "<no match>"
            else String.intercalate "\n" (["a:1:x", "b:2:y", "c:3:z"].take 2)),
            0,
            ⟨GrepSearchTool.coerceQuery [], 3, min 3 2⟩) :=
  ⟨rfl, rfl,
    truncation_invariant [("i", ⟨"", Option.none, 0⟩)] "i" [] "/r" 2
      (SearchOutcome.ok ["a:1:x", "b:2:y", "c:3:z"])
      ["a:1:x", "b:2:y", "c:3:z"] ⟨"", Option.none, 0⟩ rfl rfl⟩

/-- C5: when the backend completes with zero match lines, the observation is
exactly the single `"<no match>"` sentinel — which is not the empty
string — and the metrics report `total_matches = 0`. -/
theorem no_match_sentinel (s : ToolInstanceStore) (id : String)
    (params : List (String × PyValue)) (root : String) (m : Nat)
    (outcome : SearchOutcome) (st : ToolInstanceState)
    (hc : outcome.completed = some []) (h : lookupKey s id = some st) :
    (GrepSearchTool.execute s id params root m outcome).result
      = Except.ok ("<no match>", 0,
          ⟨GrepSearchTool.coerceQuery params, 0, 0⟩) ∧
    "<no match>" ≠ "" := by
  constructor
  · cases outcome <;>
      simp_all [SearchOutcome.completed, GrepSearchTool.execute,
        GrepSearchTool.searchStep]
  · decide

theorem no_match_sentinel_witness :
    (SearchOutcome.ok []).completed = some [] ∧
    lookupKey [("i", (⟨"", Option.none, 0⟩ : ToolInstanceState))] "i"
      = some ⟨"", Option.none, 0⟩ ∧
    ((GrepSearchTool.execute [("i", ⟨"", Option.none, 0⟩)] "i" [] "/r" 20
        (SearchOutcome.ok [])).result
      = Except.ok ("<no match>", 0, ⟨GrepSearchTool.coerceQuery [], 0, 0⟩) ∧
      "<no match>" ≠ "") :=
  ⟨rfl, rfl,
    no_match_sentinel [("i", ⟨"", Option.none, 0⟩)] "i" [] "/r" 20
      (SearchOutcome.ok []) ⟨"", Option.none, 0⟩ rfl rfl⟩

/-- C6: starting from any store, `create` with a generated identifier, then
`execute` with any query, then `release` all succeed; after the release the
identifier is gone from the store, and a second `release` with the same
identifier errors with a `KeyError` (the strict double-release policy),
leaving the store as it was. -/
theorem create_execute_release_roundtrip (s : ToolInstanceStore)
    (gen root : String) (params : List (String × PyValue)) (m : Nat)
    (lines : List String) (gt : Option String) :
    (GrepSearchTool.create s Option.none gen gt).2.1 = gen ∧
    (∃ obs met,
      (GrepSearchTool.execute (GrepSearchTool.create s Option.none gen gt).1
          gen params root m (.ok lines)).result = Except.ok (obs, 0, met)) ∧
    (GrepSearchTool.release
        (GrepSearchTool.execute (GrepSearchTool.create s Option.none gen gt).1
          gen params root m (.ok lines)).store gen).2 = Except.ok () ∧
    lookupKey
      (GrepSearchTool.release
        (GrepSearchTool.execute (GrepSearchTool.create s Option.none gen gt).1
          gen params root m (.ok lines)).store gen).1 gen = Option.none ∧
    GrepSearchTool.release
      (GrepSearchTool.release
        (GrepSearchTool.execute (GrepSearchTool.create s Option.none gen gt).1
          gen params root m (.ok lines)).store gen).1 gen
      = ((GrepSearchTool.release
          (GrepSearchTool.execute (GrepSearchTool.create s Option.none gen gt).1
            gen params root m (.ok lines)).store gen).1,
          Except.error (PyError.keyError gen)) := by
  refine ⟨rfl, ?_, ?_, ?_, ?_⟩ <;>
    simp [GrepSearchTool.create, GrepSearchTool.execute, GrepSearchTool.release,
      GrepSearchTool.searchStep, lookupKey_insertKey_self, lookupKey_eraseKey_self]

/-- C7: for any batch containing a `responses` tensor — whatever other
fields are present or missing — the no-op reward manager succeeds, the
reward it returns has the same shape as the responses with every entry zero,
and the `return_dict` flag selects between the bare tensor and the
`{"reward_tensor": ...}` container. -/
theorem noop_reward_all_zero (batch : List (String × Tensor)) (rd : Bool)
    (t : Tensor) (h : lookupKey batch "responses" = some t) :
    noopCall batch rd
      = Except.ok
          (if rd then RewardOutput.dict [("reward_tensor", zeros_like t)]
           else RewardOutput.tensor (zeros_like t)) ∧
    (zeros_like t).shape = t.shape ∧
    ∀ x ∈ (zeros_like t).data, x = 0 := by
  refine ⟨by simp [noopCall, h], rfl, ?_⟩
  intro x hx
  simp only [zeros_like, List.mem_map] at hx
  obtain ⟨a, _, ha⟩ := hx
  exact ha.symm

theorem noop_reward_all_zero_witness :
    lookupKey [("responses", (⟨[2], [5, 7]⟩ : Tensor))] "responses"
      = some ⟨[2], [5, 7]⟩ ∧
    (noopCall [("responses", ⟨[2], [5, 7]⟩)] true
        = Except.ok
            (if true then
              RewardOutput.dict [("reward_tensor", zeros_like ⟨[2], [5, 7]⟩)]
             else RewardOutput.tensor (zeros_like ⟨[2], [5, 7]⟩)) ∧
      (zeros_like (⟨[2], [5, 7]⟩ : Tensor)).shape = [2] ∧
      ∀ x ∈ (zeros_like (⟨[2], [5, 7]⟩ : Tensor)).data, x = 0) :=
  ⟨rfl, noop_reward_all_zero [("responses", ⟨[2], [5, 7]⟩)] true ⟨[2], [5, 7]⟩ rfl⟩

theorem coerceQuery_singleton (q : String) :
    GrepSearchTool.coerceQuery [("query", PyValue.str q)] = q := by
  simp [GrepSearchTool.coerceQuery, lookupKey]

/-- C8: on a registered instance, `execute` is insensitive to everything in
the parameters mapping except the coerced query: a missing `"query"` key
means the empty-string query, a non-string value is coerced with `str(...)`
(on strings the coercion is the identity), extra keys are ignored (the call
behaves exactly as if only the coerced query had been passed), and the call
returns normally rather than raising. -/
theorem execute_parameter_tolerance (s : ToolInstanceStore) (id : String)
    (params : List (String × PyValue)) (root : String) (m : Nat)
    (lines : List String) (st : ToolInstanceState)
    (h : lookupKey s id = some st) :
    (lookupKey params "query" = Option.none →
      GrepSearchTool.coerceQuery params = "") ∧
    (∀ v, lookupKey params "query" = some v →
      GrepSearchTool.coerceQuery params = pyStr v) ∧
    GrepSearchTool.execute s id params root m (.ok lines)
      = GrepSearchTool.execute s id
          [("query", PyValue.str (GrepSearchTool.coerceQuery params))]
          root m (.ok lines) ∧
    ∃ obs met,
      (GrepSearchTool.execute s id params root m (.ok lines)).result
        = Except.ok (obs, 0, met) := by
  refine ⟨?_, ?_, ?_, ?_⟩
  · intro hq
    simp [GrepSearchTool.coerceQuery, hq]
  · intro v hv
    cases v <;> simp [GrepSearchTool.coerceQuery, hv, pyStr]
  · simp only [GrepSearchTool.execute, coerceQuery_singleton]
  · refine ⟨(if (lines.take m).isEmpty then "<no match>"
        else String.intercalate "\n" (lines.take m)),
      ⟨GrepSearchTool.coerceQuery params, lines.length, (lines.take m).length⟩,
      ?_⟩
    simp [GrepSearchTool.execute, GrepSearchTool.searchStep, h]

theorem execute_parameter_tolerance_witness :
    lookupKey [("i", (⟨"", Option.none, 0⟩ : ToolInstanceState))] "i"
      = some ⟨"", Option.none, 0⟩ ∧
    ((lookupKey [("extra", PyValue.bool true), ("query", PyValue.int 42)] "query"
        = Option.none →
      GrepSearchTool.coerceQuery [("extra", PyValue.bool true), ("query", PyValue.int 42)]
        = "") ∧
      (∀ v,
        lookupKey [("extra", PyValue.bool true), ("query", PyValue.int 42)] "query"
          = some v →
        GrepSearchTool.coerceQuery
            [("extra", PyValue.bool true), ("query", PyValue.int 42)]
          = pyStr v) ∧
      GrepSearchTool.execute [("i", ⟨"", Option.none, 0⟩)] "i"
          [("extra", PyValue.bool true), ("query", PyValue.int 42)] "/r" 20
          (.ok ["m"])
        = GrepSearchTool.execute [("i", ⟨"", Option.none, 0⟩)] "i"
            [("query", PyValue.str
              (GrepSearchTool.coerceQuery
                [("extra", PyValue.bool true), ("query", PyValue.int 42)]))]
            "/r" 20 (.ok ["m"]) ∧
      ∃ obs met,
        (GrepSearchTool.execute [("i", ⟨"", Option.none, 0⟩)] "i"
            [("extra", PyValue.bool true), ("query", PyValue.int 42)] "/r" 20
            (.ok ["m"])).result = Except.ok (obs, 0, met)) :=
  ⟨rfl,
    execute_parameter_tolerance [("i", ⟨"", Option.none, 0⟩)] "i"
      [("extra", PyValue.bool true), ("query", PyValue.int 42)] "/r" 20 ["m"]
      ⟨"", Option.none, 0⟩ rfl⟩

/-- C9: a successful `execute` on a registered instance returns the
observation with immediate reward `0.0`, persists exactly that observation
into the instance's `response` field while keeping its `ground_truth` and
`reward` fields, and leaves the state stored under every other identifier
untouched. -/
theorem execute_persists_response (s : ToolInstanceStore) (id : String)
    (params : List (String × PyValue)) (root : String) (m : Nat)
    (lines : List String) (st : ToolInstanceState)
    (h : lookupKey s id = some st) :
    ∃ obs met,
      (GrepSearchTool.execute s id params root m (.ok lines)).result
        = Except.ok (obs, 0, met) ∧
      lookupKey (GrepSearchTool.execute s id params root m (.ok lines)).store id
        = some { st with response := obs } ∧
      ∀ other, other ≠ id →
        lookupKey (GrepSearchTool.execute s id params root m (.ok lines)).store
            other
          = lookupKey s other := by
  refine ⟨(if (lines.take m).isEmpty then "<no match>"
      else String.intercalate "\n" (lines.take m)),
    ⟨GrepSearchTool.coerceQuery params, lines.length, (lines.take m).length⟩,
    ?_, ?_, ?_⟩
  · simp [GrepSearchTool.execute, GrepSearchTool.searchStep, h]
  · simp [GrepSearchTool.execute, GrepSearchTool.searchStep, h,
      lookupKey_insertKey_self]
  · intro other hne
    simp [GrepSearchTool.execute, GrepSearchTool.searchStep, h,
      lookupKey_insertKey_ne _ _ _ _ hne]

theorem execute_persists_response_witness :
    lookupKey
        [("i", (⟨"old", some "gt", 0⟩ : ToolInstanceState)),
          ("j", (⟨"other", Option.none, 0⟩ : ToolInstanceState))] "i"
      = some ⟨"old", some "gt", 0⟩ ∧
    ∃ obs met,
      (GrepSearchTool.execute
          [("i", ⟨"old", some "gt", 0⟩), ("j", ⟨"other", Option.none, 0⟩)]
          "i" [] "/r" 20 (.ok ["m1", "m2"])).result
        = Except.ok (obs, 0, met) ∧
      lookupKey
          (GrepSearchTool.execute
            [("i", ⟨"old", some "gt", 0⟩), ("j", ⟨"other", Option.none, 0⟩)]
            "i" [] "/r" 20 (.ok ["m1", "m2"])).store "i"
        = some { (⟨"old", some "gt", 0⟩ : ToolInstanceState) with response := obs } ∧
      ∀ other, other ≠ "i" →
        lookupKey
            (GrepSearchTool.execute
              [("i", ⟨"old", some "gt", 0⟩), ("j", ⟨"other", Option.none, 0⟩)]
              "i" [] "/r" 20 (.ok ["m1", "m2"])).store other
          = lookupKey
              [("i", (⟨"old", some "gt", 0⟩ : ToolInstanceState)),
                ("j", (⟨"other", Option.none, 0⟩ : ToolInstanceState))] other :=
  ⟨rfl,
    execute_persists_response
      [("i", ⟨"old", some "gt", 0⟩), ("j", ⟨"other", Option.none, 0⟩)]
      "i" [] "/r" 20 ["m1", "m2"] ⟨"old", some "gt", 0⟩ rfl⟩

/-- C10: an `execute` call with an identifier absent from the instance store
fails with the `KeyError` of the persistence step, and only there: the event
trace shows the search subprocess did run (it is non-empty and consists only
of subprocess attempts, with no store write), and the instance store is
returned exactly as it was. -/
theorem execute_unknown_id_atomicity (s : ToolInstanceStore) (id : String)
    (params : List (String × PyValue)) (root : String) (m : Nat)
    (outcome : SearchOutcome) (lines : List String)
    (hc : outcome.completed = some lines) (h : lookupKey s id = Option.none) :
    GrepSearchTool.execute s id params root m outcome
      = ⟨s,
          GrepSearchTool.searchEvents outcome
            (GrepSearchTool.coerceQuery params) root,
          Except.error (PyError.keyError id)⟩ ∧
    GrepSearchTool.searchEvents outcome (GrepSearchTool.coerceQuery params) root
      ≠ [] ∧
    ∀ e ∈ GrepSearchTool.searchEvents outcome
        (GrepSearchTool.coerceQuery params) root,
      ∃ c, e = ExecEvent.subprocessAttempt c := by
  cases outcome <;>
    simp_all [SearchOutcome.completed, GrepSearchTool.execute,
      GrepSearchTool.searchStep, GrepSearchTool.searchEvents, h]

theorem execute_unknown_id_atomicity_witness :
    (SearchOutcome.ok ["m1"]).completed = some ["m1"] ∧
    lookupKey ([] : ToolInstanceStore) "x" = Option.none ∧
    (GrepSearchTool.execute [] "x" [] "/r" 20 (SearchOutcome.ok ["m1"])
        = ⟨[],
            GrepSearchTool.searchEvents (SearchOutcome.ok ["m1"])
              (GrepSearchTool.coerceQuery []) "/r",
            Except.error (PyError.keyError "x")⟩ ∧
      GrepSearchTool.searchEvents (SearchOutcome.ok ["m1"])
          (GrepSearchTool.coerceQuery []) "/r" ≠ [] ∧
      ∀ e ∈ GrepSearchTool.searchEvents (SearchOutcome.ok ["m1"])
          (GrepSearchTool.coerceQuery []) "/r",
        ∃ c, e = ExecEvent.subprocessAttempt c) :=
  ⟨rfl, rfl,
    execute_unknown_id_atomicity [] "x" [] "/r" 20 (SearchOutcome.ok ["m1"])
      ["m1"] rfl rfl⟩
